import Mathlib

/-!
Verification of the win32-qv QF port (`src/ports/win32-qv/qf_port.h`).

The port header configures the cooperative QV kernel for a Win32 host:
configuration constants, the critical-section gateway macros, the native
event-queue hooks and the event-pool macros (with the Windows oversizing
"fudge factor").  Components that the header only declares or includes
(QMPool, QEQueue, QPSet64 and the kernel call sites of the hooks) are
modelled from the specification, as marked on each definition.
-/

namespace QP

/-- Maximum number of active objects (`#define QF_MAX_ACTIVE 63`,
src/ports/win32-qv/qf_port.h line 47). -/
def QF_MAX_ACTIVE : Nat := 63

/-- Number of system clock tick rates (`#define QF_MAX_TICK_RATE 2`, line 50). -/
def QF_MAX_TICK_RATE : Nat := 2

/-- Windows "fudge factor" for oversizing the resources
(`enum { QF_WIN32_FUDGE_FACTOR = 100 };`, qf_port.h lines 124-126). -/
def QF_WIN32_FUDGE_FACTOR : Nat := 100

/-- Events are abstract references (pointers to `QEvt`); their content is
irrelevant to the port-level properties, so they are modelled as naturals. -/
abbrev Evt := Nat

/-- Modelled from the spec: the fixed-block event-pool `QMPool` (qmpool.h is
not under src/; spec section 4.3 "Event Pool Manager").  The pool tracks one
block size and free/used blocks; `nTot` is the total block capacity carved at
`init` and `nFree` the current number of free blocks. -/
structure QMPool where
  blockSize : Nat
  nTot : Nat
  nFree : Nat
deriving DecidableEq

/-- Modelled from the spec: `init(poolBuffer, inflatedCapacity, blockSize)`
carves the pool's storage (spec section 4.3); all `inflatedCapacity` blocks
start free. -/
def QMPool.init (poolSize evtSize : Nat) : QMPool :=
  { blockSize := evtSize, nTot := poolSize, nFree := poolSize }

/-- Modelled from the spec: `get(margin) -> event|fail` allocates one block,
failing (not blocking) if free blocks would fall below `margin` reserved
blocks, otherwise from the general free list (spec sections 4.3 and 8).
Returns the updated pool and the allocated event (`none` models the null
event pointer on failure; on failure the pool is unchanged). -/
def QMPool.get (p : QMPool) (margin : Nat) : QMPool × Option Evt :=
  if margin < p.nFree then ({ p with nFree := p.nFree - 1 }, some 0)
  else (p, none)

/-- Modelled from the spec: `put(event)` returns a block to the pool
(spec section 4.3). -/
def QMPool.put (p : QMPool) (e : Evt) : QMPool :=
  { p with nFree := p.nFree + 1 }

/-- A C++ array allocator: `new uint8_t[k]` either throws `std::bad_alloc`
(modelled as `none`) or returns a pointer to fresh storage (modelled as
`some addr`).  The C++ guarantee that a throwing `new` never returns a null
pointer is stated as a hypothesis where needed, not baked into the type. -/
abbrev Alloc := Nat → Option Nat

/-- The modulus of `uint_fast32_t` arithmetic on the Win32 target, where
`uint_fast32_t` is 32 bits wide: the macro's unsigned multiplication
`(poolSize_) * QF_WIN32_FUDGE_FACTOR` wraps modulo `2 ^ 32`. -/
def UINT_FAST32_MOD : Nat := 2 ^ 32

/-- Possible outcomes of running `QF_EPOOL_INIT_`: successful initialization
of the pool, a thrown `std::bad_alloc` from `new[]`, or a fired
`Q_ASSERT_ID` with the given assertion id. -/
inductive InitOutcome where
  | ok : QMPool → InitOutcome
  | badAlloc : InitOutcome
  | assertFail : Nat → InitOutcome
deriving DecidableEq

/-- Shallow embedding of `QF_EPOOL_INIT_(p_, poolSto_, poolSize_, evtSize_)`
(qf_port.h lines 103-109): computes
`uint_fast32_t fudgedSize = (poolSize_) * QF_WIN32_FUDGE_FACTOR` — unsigned
32-bit arithmetic, so the product wraps modulo `UINT_FAST32_MOD` — allocates
`new uint8_t[(poolSize_) * QF_WIN32_FUDGE_FACTOR]` (the same wrapped value),
asserts the result non-null (`Q_ASSERT_ID(210, ...)`), discards the caller's
`poolSto_` (`(void)(poolSto_);`) and calls
`p_.init(fudgedSto, fudgedSize, evtSize_)`.  The caller's pool buffer is
threaded through and returned so that the frame property (it is never read or
written) is expressible. -/
def QF_EPOOL_INIT_ (alloc : Alloc) (poolSto : List Nat) (poolSize evtSize : Nat) :
    InitOutcome × List Nat :=
  let fudgedSize := poolSize * QF_WIN32_FUDGE_FACTOR % UINT_FAST32_MOD
  match alloc (poolSize * QF_WIN32_FUDGE_FACTOR % UINT_FAST32_MOD) with
  | none => (InitOutcome.badAlloc, poolSto)
  | some fudgedSto =>
      if fudgedSto = 0 then (InitOutcome.assertFail 210, poolSto)
      else (InitOutcome.ok (QMPool.init fudgedSize evtSize), poolSto)

/-- Shallow embedding of `QF_EPOOL_GET_(p_, e_, m_)` (qf_port.h lines 112-113):
`(e_) = static_cast<QEvt *>((p_).get((m_)))`, forwarding the margin to the
pool's `get`. -/
def QF_EPOOL_GET_ (p : QMPool) (m : Nat) : QMPool × Option Evt :=
  p.get m

/-- Shallow embedding of `QF_EPOOL_PUT_(p_, e_)` (qf_port.h line 114):
`(p_).put(e_)`. -/
def QF_EPOOL_PUT_ (p : QMPool) (e : Evt) : QMPool :=
  p.put e

/-- Shallow embedding of `QF_EPOOL_EVENT_SIZE_(p_)` (qf_port.h line 111):
`(p_).getBlockSize()`. -/
def QF_EPOOL_EVENT_SIZE_ (p : QMPool) : Nat :=
  p.blockSize

/-- A finite sequence of balanced get/put cycles on a pool: for each margin in
the list, perform `QF_EPOOL_GET_`; on success immediately `QF_EPOOL_PUT_` the
allocated event back; on failure the pool is left as is. -/
def getPutCycles (p : QMPool) (ms : List Nat) : QMPool :=
  match ms with
  | [] => p
  | m :: rest =>
      match QF_EPOOL_GET_ p m with
      | (p1, some e) => getPutCycles (QF_EPOOL_PUT_ p1 e) rest
      | (_, none) => getPutCycles p rest

/-- The action performed by a critical-section macro: a call to one of the two
process-wide gateway functions declared in qf_port.h lines 76-77. -/
inductive GatewayAction where
  | enterCritSect
  | leaveCritSect
deriving DecidableEq

/-- The process-wide gateway entry `QP::QF_enterCriticalSection_()`
(declared qf_port.h line 76). -/
def QF_enterCriticalSection_ : GatewayAction :=
  GatewayAction.enterCritSect

/-- The process-wide gateway exit `QP::QF_leaveCriticalSection_()`
(declared qf_port.h line 77). -/
def QF_leaveCriticalSection_ : GatewayAction :=
  GatewayAction.leaveCritSect

/-- `#define QF_INT_DISABLE() (QP::QF_enterCriticalSection_())` (line 60). -/
def QF_INT_DISABLE : GatewayAction :=
  QF_enterCriticalSection_

/-- `#define QF_INT_ENABLE() (QP::QF_leaveCriticalSection_())` (line 61). -/
def QF_INT_ENABLE : GatewayAction :=
  QF_leaveCriticalSection_

/-- `#define QF_CRIT_ENTRY(dummy) QF_INT_DISABLE()` (line 65): the status
argument is ignored (`QF_CRIT_STAT_TYPE` is not defined in this port). -/
def QF_CRIT_ENTRY (dummy : Nat) : GatewayAction :=
  QF_INT_DISABLE

/-- `#define QF_CRIT_EXIT(dummy) QF_INT_ENABLE()` (line 66). -/
def QF_CRIT_EXIT (dummy : Nat) : GatewayAction :=
  QF_INT_ENABLE

/-- Modelled from the spec: `QPSet64.insert(priority)` sets bit `priority` of
the fixed-width (at most 64-bit) Ready-Set bitmask (qpset.h is not under
src/; spec sections 2 and 4.1).  The mask value is a natural read as a 64-bit
word. -/
def QPSet64.insert (s p : Nat) : Nat :=
  s ||| 2 ^ p

/-- Modelled from the spec: `QPSet64.remove(priority)` clears bit `priority`
of the Ready-Set bitmask, i.e. ands with the 64-bit complement of the bit
(spec section 4.1). -/
def QPSet64.remove (s p : Nat) : Nat :=
  s &&& ((2 ^ 64 - 1) ^^^ 2 ^ p)

/-- Shallow embedding of `QACTIVE_EQUEUE_SIGNAL_(me_)` (qf_port.h lines
94-95): `QV_readySet_.insert((me_)->m_prio)`, applied to the current
ready-set value. -/
def QACTIVE_EQUEUE_SIGNAL_ (readySet : Nat) (prio : Nat) : Nat :=
  QPSet64.insert readySet prio

/-- Shallow embedding of `QACTIVE_EQUEUE_ONEMPTY_(me_)` (qf_port.h lines
97-98): `QV_readySet_.remove((me_)->m_prio)`. -/
def QACTIVE_EQUEUE_ONEMPTY_ (readySet : Nat) (prio : Nat) : Nat :=
  QPSet64.remove readySet prio

/-- Modelled from the spec: the native event queue of an active object
(qequeue.h is not under src/; spec section 4.2), as the FIFO list of queued
events.  `m_frontEvt` is the front event pointer, null exactly when the queue
is empty. -/
structure QEQueue where
  events : List Evt
deriving DecidableEq

/-- The queue's front event pointer `m_eQueue.m_frontEvt`: `none` models the
null pointer of an empty queue. -/
def QEQueue.frontEvt (q : QEQueue) : Option Evt :=
  q.events.head?

/-- Outcome of the queue-wait hook: either the scheduler proceeds to dequeue,
or the `Q_ASSERT` fires fatally. -/
inductive WaitOutcome where
  | proceed
  | assertFailure
deriving DecidableEq

/-- Shallow embedding of `QACTIVE_EQUEUE_WAIT_(me_)` (qf_port.h lines 92-93):
`Q_ASSERT((me_)->m_eQueue.m_frontEvt != static_cast<QEvt const *>(0))` —
a fatal assertion when the selected queue's front event is null, and a no-op
otherwise. -/
def QACTIVE_EQUEUE_WAIT_ (q : QEQueue) : WaitOutcome :=
  if q.frontEvt = none then WaitOutcome.assertFailure else WaitOutcome.proceed

/-- Kernel state relevant to the Ready-Set/queue invariant: the global
`QV_readySet_` mask (qf_port.h line 120) and each priority's event queue.
Priorities are bit indices of the 64-bit mask, hence `Fin 64`. -/
structure KernelState where
  readySet : Nat
  queues : Fin 64 → List Evt

/-- Modelled from the spec: the two kernel operations that touch a queue's
emptiness boundary (their call sites, in the QF post/dispatch code, are not
under src/; spec section 4.2).  `post p e` enqueues `e` on `p`'s queue and,
exactly on the empty-to-non-empty transition, runs the
`QACTIVE_EQUEUE_SIGNAL_` hook; `dispatch p` dequeues one event and, exactly
on the non-empty-to-empty transition, runs the `QACTIVE_EQUEUE_ONEMPTY_`
hook.  These are the only Ready-Set mutations the kernel performs. -/
inductive KernelOp where
  | post (p : Fin 64) (e : Evt)
  | dispatch (p : Fin 64)

/-- One kernel step, as described on `KernelOp`. -/
def stepKernel (st : KernelState) (op : KernelOp) : KernelState :=
  match op with
  | KernelOp.post p e =>
      let q := st.queues p
      { readySet :=
          if q.isEmpty then QACTIVE_EQUEUE_SIGNAL_ st.readySet p.val
          else st.readySet,
        queues := fun r => if r = p then q ++ [e] else st.queues r }
  | KernelOp.dispatch p =>
      match st.queues p with
      | [] => st
      | _ :: rest =>
          { readySet :=
              if rest.isEmpty then QACTIVE_EQUEUE_ONEMPTY_ st.readySet p.val
              else st.readySet,
            queues := fun r => if r = p then rest else st.queues r }

/-- Run a sequence of kernel operations. -/
def runKernel (ops : List KernelOp) (st : KernelState) : KernelState :=
  ops.foldl stepKernel st

/-- The kernel's start state: empty ready set, all queues empty. -/
def initialKernel : KernelState :=
  { readySet := 0, queues := fun _ => [] }

/-- The Ready-Set/queue invariant: bit `p` of the ready set is set exactly
when priority `p`'s queue is non-empty. -/
def ReadyMatchesQueues (st : KernelState) : Prop :=
  ∀ p : Fin 64, st.readySet.testBit p.val = true ↔ st.queues p ≠ []

theorem QPSet64.testBit_insert (s p r : Nat) :
    (QPSet64.insert s p).testBit r = (s.testBit r || decide (p = r)) := by
  simp [QPSet64.insert, Nat.testBit_two_pow]

theorem QPSet64.testBit_remove (s p r : Nat) (hr : r < 64) :
    (QPSet64.remove s p).testBit r = (s.testBit r && !decide (p = r)) := by
  unfold QPSet64.remove
  rw [Nat.testBit_and, Nat.testBit_xor, Nat.testBit_two_pow_sub_one, Nat.testBit_two_pow]
  simp [hr]

theorem readyMatchesQueues_step (st : KernelState) (op : KernelOp)
    (h : ReadyMatchesQueues st) : ReadyMatchesQueues (stepKernel st op) := by
  cases op with
  | post p e =>
      intro r
      simp only [stepKernel]
      by_cases hrp : r = p
      · subst hrp
        by_cases hq : (st.queues r).isEmpty
        · simp [hq, QACTIVE_EQUEUE_SIGNAL_, QPSet64.testBit_insert]
        · have hne : st.queues r ≠ [] := by
            simpa using hq
          simp [hq, (h r).mpr hne]
      · have hvne : p.val ≠ r.val := fun hv => hrp (Fin.ext hv).symm
        by_cases hq : (st.queues p).isEmpty
        · simp [hq, hrp, QACTIVE_EQUEUE_SIGNAL_, QPSet64.testBit_insert, hvne, h r]
        · simp [hq, hrp, h r]
  | dispatch p =>
      intro r
      cases hQ : st.queues p with
      | nil => simpa [stepKernel, hQ] using h r
      | cons hd tl =>
          simp only [stepKernel, hQ]
          by_cases hrp : r = p
          · subst hrp
            cases tl with
            | nil =>
                simp [QACTIVE_EQUEUE_ONEMPTY_, QPSet64.testBit_remove _ _ _ r.isLt]
            | cons x xs =>
                have hne : st.queues r ≠ [] := by simp [hQ]
                simp [(h r).mpr hne]
          · have hvne : p.val ≠ r.val := fun hv => hrp (Fin.ext hv).symm
            cases tl with
            | nil =>
                simp [hrp, QACTIVE_EQUEUE_ONEMPTY_,
                  QPSet64.testBit_remove _ _ _ r.isLt, hvne, h r]
            | cons x xs =>
                simp [hrp, h r]

theorem readyMatchesQueues_run (ops : List KernelOp) (st : KernelState)
    (h : ReadyMatchesQueues st) : ReadyMatchesQueues (runKernel ops st) := by
  induction ops generalizing st with
  | nil => exact h
  | cons op rest ih => exact ih (stepKernel st op) (readyMatchesQueues_step st op h)

theorem readyMatchesQueues_initial : ReadyMatchesQueues initialKernel := by
  intro p
  simp [initialKernel, Nat.zero_testBit]

/-- Modelled from the spec: the queue-side oversizing at active-object start
(the port's `QActive::start` implementation file is not under src/): the
configured queue capacity is multiplied by the same oversizing factor at
initialization (spec glossary "Oversizing/Fudge Factor: multiplicative safety
margin applied to queue/pool capacities" and section 9: "a single
configuration multiplier applied only at the host-adaptation boundary
(pool/queue initialization)"). -/
def QActive_start_fudgedQLen (qLen : Nat) : Nat :=
  qLen * QF_WIN32_FUDGE_FACTOR

theorem epool_init_ok_counts (alloc : Alloc) (sto : List Nat) (n e : Nat)
    (pool : QMPool)
    (h : (QF_EPOOL_INIT_ alloc sto n e).1 = InitOutcome.ok pool) :
    pool.nTot = n * QF_WIN32_FUDGE_FACTOR % UINT_FAST32_MOD ∧
    pool.nFree = n * QF_WIN32_FUDGE_FACTOR % UINT_FAST32_MOD := by
  simp only [QF_EPOOL_INIT_] at h
  split at h
  · simp at h
  · split at h
    · simp at h
    · have hinit :
          QMPool.init (n * QF_WIN32_FUDGE_FACTOR % UINT_FAST32_MOD) e = pool := by
        simpa using h
      subst hinit
      exact ⟨rfl, rfl⟩

/-- Counterexample to C1 as stated: at declared capacity `2 ^ 31` the
macro's `uint_fast32_t` multiplication wraps (`2 ^ 31 * 100 % 2 ^ 32 = 0`),
so initialization succeeds with a pool of 0 blocks, not
`2 ^ 31 * QF_WIN32_FUDGE_FACTOR` blocks. -/
theorem C1_epool_init_wraps_at_two_pow_31 :
    (QF_EPOOL_INIT_ (fun _ => some 1) [] (2 ^ 31) 4).1 =
      InitOutcome.ok { blockSize := 4, nTot := 0, nFree := 0 } ∧
    ({ blockSize := 4, nTot := 0, nFree := 0 } : QMPool).nTot ≠
      2 ^ 31 * QF_WIN32_FUDGE_FACTOR := by
  refine ⟨by decide, by decide⟩

/-- C1 (amended): on the host path, for every declared capacity whose
inflated size is representable in `uint_fast32_t`
(`n * QF_WIN32_FUDGE_FACTOR < UINT_FAST32_MOD`), `QF_EPOOL_INIT_` passes to
the underlying `QMPool.init` a storage size equal to the declared capacity
multiplied by the oversizing factor 100, applied exactly once: the
initialized pool has exactly `n * QF_WIN32_FUDGE_FACTOR` blocks available,
with the factor equal to 100.  Beyond that range the unsigned multiplication
wraps modulo `2 ^ 32`. -/
theorem C1_epool_init_applies_factor_once (alloc : Alloc) (sto : List Nat)
    (n e : Nat) (pool : QMPool)
    (hrep : n * QF_WIN32_FUDGE_FACTOR < UINT_FAST32_MOD)
    (h : (QF_EPOOL_INIT_ alloc sto n e).1 = InitOutcome.ok pool) :
    pool.nTot = n * QF_WIN32_FUDGE_FACTOR ∧
    pool.nFree = n * QF_WIN32_FUDGE_FACTOR ∧
    QF_WIN32_FUDGE_FACTOR = 100 := by
  have hc := epool_init_ok_counts alloc sto n e pool h
  rw [Nat.mod_eq_of_lt hrep] at hc
  exact ⟨hc.1, hc.2, rfl⟩

/-- Witness for C1 at logical capacity 10 (well within the representable
range): initialization succeeds and the resulting pool has exactly 1000 free
blocks. -/
theorem C1_epool_init_applies_factor_once_witness :
    ({ blockSize := 4, nTot := 1000, nFree := 1000 } : QMPool).nFree =
        10 * QF_WIN32_FUDGE_FACTOR ∧
    10 * QF_WIN32_FUDGE_FACTOR = 1000 :=
  ⟨(C1_epool_init_applies_factor_once (fun _ => some 1) [] 10 4
      { blockSize := 4, nTot := 1000, nFree := 1000 } (by decide) (by decide)).2.1,
   by decide⟩

/-- C2: across every sequence of kernel enqueue/dequeue operations starting
from the initial state, the queue-transition hooks `QACTIVE_EQUEUE_SIGNAL_`
(inserting the priority on the empty-to-non-empty transition) and
`QACTIVE_EQUEUE_ONEMPTY_` (removing it on the non-empty-to-empty transition)
— the only Ready-Set mutations `stepKernel` performs — keep the Ready-Set
equal to the set of priorities with non-empty queues. -/
theorem C2_readySet_equals_nonempty_queues (ops : List KernelOp) (p : Fin 64) :
    ((runKernel ops initialKernel).readySet.testBit p.val = true ↔
      (runKernel ops initialKernel).queues p ≠ []) :=
  readyMatchesQueues_run ops initialKernel readyMatchesQueues_initial p

/-- Counterexample to C3 as stated: at pool capacity `2 ^ 31 + 1` the
macro's `uint_fast32_t` multiplication wraps
(`(2 ^ 31 + 1) * 100 % 2 ^ 32 = 100`), so the effective host pool capacity
is 100 blocks, not `(2 ^ 31 + 1) * QF_WIN32_FUDGE_FACTOR` blocks. -/
theorem C3_pool_factor_wraps_beyond_uint_fast32 :
    (QF_EPOOL_INIT_ (fun _ => some 1) [] (2 ^ 31 + 1) 4).1 =
      InitOutcome.ok { blockSize := 4, nTot := 100, nFree := 100 } ∧
    ({ blockSize := 4, nTot := 100, nFree := 100 } : QMPool).nTot ≠
      (2 ^ 31 + 1) * QF_WIN32_FUDGE_FACTOR := by
  refine ⟨by decide, by decide⟩

/-- C3 (amended): the host oversizing multiplier is applied at initialization
to both event-queue capacities (queue-side start) and event-pool capacities
(`QF_EPOOL_INIT_`); on the pool side the effective capacity equals
`n * QF_WIN32_FUDGE_FACTOR` whenever that product is representable in
`uint_fast32_t` (`n * QF_WIN32_FUDGE_FACTOR < UINT_FAST32_MOD`), the
unsigned multiplication wrapping modulo `2 ^ 32` beyond it. -/
theorem C3_factor_applied_to_queues_and_pools (c n e : Nat) (alloc : Alloc)
    (sto : List Nat) (pool : QMPool)
    (hrep : n * QF_WIN32_FUDGE_FACTOR < UINT_FAST32_MOD)
    (h : (QF_EPOOL_INIT_ alloc sto n e).1 = InitOutcome.ok pool) :
    QActive_start_fudgedQLen c = c * QF_WIN32_FUDGE_FACTOR ∧
    pool.nTot = n * QF_WIN32_FUDGE_FACTOR := by
  have hc := epool_init_ok_counts alloc sto n e pool h
  rw [Nat.mod_eq_of_lt hrep] at hc
  exact ⟨rfl, hc.1⟩

/-- Witness for C3: queue capacity 10 and pool capacity 5 are both multiplied
by the factor. -/
theorem C3_factor_applied_to_queues_and_pools_witness :
    QActive_start_fudgedQLen 10 = 10 * QF_WIN32_FUDGE_FACTOR ∧
    ({ blockSize := 4, nTot := 500, nFree := 500 } : QMPool).nTot =
      5 * QF_WIN32_FUDGE_FACTOR :=
  C3_factor_applied_to_queues_and_pools 10 5 4 (fun _ => some 1) []
    { blockSize := 4, nTot := 500, nFree := 500 } (by decide) (by decide)

/-- C4: when the scheduler's selected queue is empty, the queue-wait hook is a
fatal assertion, never recoverable or silently ignored: `QACTIVE_EQUEUE_WAIT_`
fires the assertion exactly when the queue's front event is null, which holds
exactly when the queue is empty. -/
theorem C4_empty_selected_queue_is_fatal (q : QEQueue) :
    (QACTIVE_EQUEUE_WAIT_ q = WaitOutcome.assertFailure ↔ q.frontEvt = none) ∧
    (q.frontEvt = none ↔ q.events = []) := by
  constructor
  · unfold QACTIVE_EQUEUE_WAIT_
    split <;> simp_all
  · simp [QEQueue.frontEvt, List.head?_eq_none_iff]

/-- C5: the maximum number of active objects is exactly 63, and every
registered priority in `[1, QF_MAX_ACTIVE]` is a valid bit index of the
64-bit Ready-Set: inserting or removing it keeps the mask a 64-bit value. -/
theorem C5_max_active_63_fits_64bit_set :
    QF_MAX_ACTIVE = 63 ∧
    ∀ p s : Nat, 1 ≤ p → p ≤ QF_MAX_ACTIVE → s < 2 ^ 64 →
      p < 64 ∧ QPSet64.insert s p < 2 ^ 64 ∧ QPSet64.remove s p < 2 ^ 64 := by
  refine ⟨rfl, fun p s h1 h2 hs => ?_⟩
  have hp : p < 64 := by
    have h3 : p ≤ 63 := h2
    omega
  refine ⟨hp, ?_, ?_⟩
  · exact Nat.or_lt_two_pow hs (Nat.pow_lt_pow_right (by omega) hp)
  · exact Nat.lt_of_le_of_lt Nat.and_le_left hs

/-- Witness for C5 at priority 5 on the empty mask. -/
theorem C5_max_active_63_fits_64bit_set_witness :
    QF_MAX_ACTIVE = 63 ∧
    (5 < 64 ∧ QPSet64.insert 0 5 < 2 ^ 64 ∧ QPSet64.remove 0 5 < 2 ^ 64) :=
  ⟨C5_max_active_63_fits_64bit_set.1,
   C5_max_active_63_fits_64bit_set.2 5 0 (by decide) (by decide) (by decide)⟩

/-- C6: critical-section entry and exit are the single process-wide gateway,
independent of the per-call status argument: for every status, `QF_CRIT_ENTRY`
performs exactly `QF_INT_DISABLE` (a call to `QF_enterCriticalSection_`) and
`QF_CRIT_EXIT` exactly `QF_INT_ENABLE` (a call to `QF_leaveCriticalSection_`),
with no dependence on the status. -/
theorem C6_crit_section_is_single_gateway (s t : Nat) :
    QF_CRIT_ENTRY s = QF_INT_DISABLE ∧
    QF_CRIT_EXIT s = QF_INT_ENABLE ∧
    QF_INT_DISABLE = QF_enterCriticalSection_ ∧
    QF_INT_ENABLE = QF_leaveCriticalSection_ ∧
    QF_CRIT_ENTRY s = QF_CRIT_ENTRY t ∧
    QF_CRIT_EXIT s = QF_CRIT_EXIT t :=
  ⟨rfl, rfl, rfl, rfl, rfl, rfl⟩

/-- C7: `QF_EPOOL_GET_` (forwarding the margin to the pool's `get`) returns a
null event — failing, not blocking — exactly when granting the request would
drop the free-block count below the margin, and on success the remaining free
count stays at or above the margin. -/
theorem C7_epool_get_respects_margin (p : QMPool) (m : Nat) :
    ((QF_EPOOL_GET_ p m).2 = none ↔ p.nFree ≤ m) ∧
    (∀ e, (QF_EPOOL_GET_ p m).2 = some e → m ≤ (QF_EPOOL_GET_ p m).1.nFree) := by
  constructor
  · by_cases hm : m < p.nFree <;> simp [QF_EPOOL_GET_, QMPool.get, hm] <;> omega
  · intro e he
    by_cases hm : m < p.nFree
    · simp [QF_EPOOL_GET_, QMPool.get, hm]
      omega
    · simp [QF_EPOOL_GET_, QMPool.get, hm] at he

/-- Witness for C7: with 3 free blocks and margin 3 the allocation fails even
though physical blocks remain; with 5 free blocks and margin 3 it succeeds
and leaves at least 3 free. -/
theorem C7_epool_get_respects_margin_witness :
    (QF_EPOOL_GET_ { blockSize := 4, nTot := 1000, nFree := 3 } 3).2 = none ∧
    3 ≤ (QF_EPOOL_GET_ { blockSize := 4, nTot := 1000, nFree := 5 } 3).1.nFree :=
  ⟨(C7_epool_get_respects_margin { blockSize := 4, nTot := 1000, nFree := 3 } 3).1.mpr
      (by decide),
   (C7_epool_get_respects_margin { blockSize := 4, nTot := 1000, nFree := 5 } 3).2 0
      (by decide)⟩

/-- C8: `QF_EPOOL_PUT_` after a successful `QF_EPOOL_GET_` restores the
pool's free-block count, and any finite sequence of balanced get/put cycles
leaves the free-block count unchanged (no leaked blocks). -/
theorem C8_get_put_roundtrip (p : QMPool) (m : Nat) (ms : List Nat) :
    (∀ p1 e, QF_EPOOL_GET_ p m = (p1, some e) →
      (QF_EPOOL_PUT_ p1 e).nFree = p.nFree) ∧
    (getPutCycles p ms).nFree = p.nFree := by
  constructor
  · intro p1 e hget
    by_cases hm : m < p.nFree
    · simp [QF_EPOOL_GET_, QMPool.get, hm] at hget
      obtain ⟨h1, h2⟩ := hget
      subst h1
      subst h2
      simp [QF_EPOOL_PUT_, QMPool.put]
      omega
    · simp [QF_EPOOL_GET_, QMPool.get, hm] at hget
  · induction ms generalizing p with
    | nil => rfl
    | cons m0 rest ih =>
        by_cases hm : m0 < p.nFree
        · have h1 : getPutCycles p (m0 :: rest) =
              getPutCycles (QF_EPOOL_PUT_ { p with nFree := p.nFree - 1 } 0) rest := by
            simp [getPutCycles, QF_EPOOL_GET_, QMPool.get, hm]
          rw [h1, ih]
          simp [QF_EPOOL_PUT_, QMPool.put]
          omega
        · have h1 : getPutCycles p (m0 :: rest) = getPutCycles p rest := by
            simp [getPutCycles, QF_EPOOL_GET_, QMPool.get, hm]
          rw [h1, ih]

/-- Witness for C8: a concrete get/put round trip restores the count, and a
concrete run of three cycles leaves it unchanged. -/
theorem C8_get_put_roundtrip_witness :
    (QF_EPOOL_PUT_ { blockSize := 4, nTot := 1000, nFree := 9 } 0).nFree =
      ({ blockSize := 4, nTot := 1000, nFree := 10 } : QMPool).nFree ∧
    (getPutCycles { blockSize := 4, nTot := 1000, nFree := 10 } [0, 1, 2]).nFree =
      ({ blockSize := 4, nTot := 1000, nFree := 10 } : QMPool).nFree :=
  ⟨(C8_get_put_roundtrip { blockSize := 4, nTot := 1000, nFree := 10 } 0 [0, 1, 2]).1
      { blockSize := 4, nTot := 1000, nFree := 9 } 0 (by decide),
   (C8_get_put_roundtrip { blockSize := 4, nTot := 1000, nFree := 10 } 0 [0, 1, 2]).2⟩

/-- C9: `QF_EPOOL_INIT_` never reads or writes the caller-supplied pool
storage buffer: the buffer comes back unchanged and the outcome is identical
for any two buffer contents. -/
theorem C9_poolSto_discarded (alloc : Alloc) (sto sto2 : List Nat) (n e : Nat) :
    (QF_EPOOL_INIT_ alloc sto n e).2 = sto ∧
    (QF_EPOOL_INIT_ alloc sto n e).1 = (QF_EPOOL_INIT_ alloc sto2 n e).1 := by
  simp only [QF_EPOOL_INIT_]
  cases hA : alloc (n * QF_WIN32_FUDGE_FACTOR % UINT_FAST32_MOD) with
  | none => exact ⟨rfl, rfl⟩
  | some a =>
      by_cases ha : a = 0
      · simp [ha]
      · simp [ha]

/-- C10: the null check `Q_ASSERT_ID(210, ...)` cannot fire: `new[]` throws
on failure rather than returning null, so for every allocator satisfying the
C++ guarantee and every pool size, `QF_EPOOL_INIT_` never ends in the
assertion-210 failure. -/
theorem C10_assert_210_unreachable (alloc : Alloc)
    (halloc : ∀ k a, alloc k = some a → a ≠ 0)
    (sto : List Nat) (n e : Nat) :
    (QF_EPOOL_INIT_ alloc sto n e).1 ≠ InitOutcome.assertFail 210 := by
  simp only [QF_EPOOL_INIT_]
  cases hA : alloc (n * QF_WIN32_FUDGE_FACTOR % UINT_FAST32_MOD) with
  | none => simp
  | some a =>
      have ha : a ≠ 0 := halloc _ _ hA
      simp [ha]

/-- Witness for C10 with a concrete conforming allocator and size 7. -/
theorem C10_assert_210_unreachable_witness :
    (QF_EPOOL_INIT_ (fun _ => some 1) [] 7 4).1 ≠ InitOutcome.assertFail 210 :=
  C10_assert_210_unreachable (fun _ => some 1)
    (fun k a h => by
      have h1 : (1 : Nat) = a := Option.some.inj h
      omega) [] 7 4

end QP
